import Mathlib

/-
Verification development for the EfficientCFL backbone
(src/CFLPytorch/EfficientCFL.py).

The network's forward computation is shallowly embedded over rational-valued
single-sample tensors (the claims all concern a batch of size 1, so the batch
dimension is left implicit; the stochastic-depth gate's one-Bernoulli-bit-per-
sample becomes a single Bool per block application).  The smooth sigmoid is not
a rational function, so every value-level definition is parameterized by an
arbitrary function standing for the sigmoid; none of the properties proved
below depend on which function is supplied.  Eval-mode batch normalization
computes the per-channel affine map x mapsto (x - mu)/sqrt(var + eps) * gamma + beta;
since sqrt is likewise irrational it is modelled by its two per-channel affine
coefficients directly.

Helpers imported by the source from CFLPytorch.utils (round_filters,
round_repeats, drop_connect, the same-padding convolutions, the model
registry) are not part of src/; each is modelled from the specification and
carries a doc comment saying so.
-/

namespace EffCFL

/-- A single-sample feature map: channel, height and width counts together
with a data function.  Reads outside the valid index range are only ever made
through zero-padding-aware accessors. -/
structure Tensor where
  channels : Nat
  height : Nat
  width : Nat
  data : Nat → Nat → Nat → ℚ

/-- The shape triple of a tensor (channels, height, width). -/
def Tensor.dims (t : Tensor) : Nat × Nat × Nat := (t.channels, t.height, t.width)

/-- Zero-padded read: positions outside the spatial extent read as 0. -/
def Tensor.read (t : Tensor) (c : Nat) (i j : Int) : ℚ :=
  if 0 ≤ i ∧ i < (t.height : Int) ∧ 0 ≤ j ∧ j < (t.width : Int) then
    t.data c i.toNat j.toNat
  else 0

/-- Modelled from the spec: the same-padding output rule — the output spatial
size of a same-padding convolution equals ceil(input / stride). -/
def sameOut (s stride : Nat) : Nat := (s + stride - 1) / stride

/-- A 2D convolution layer: channel metadata, kernel size, stride, group
count, and its (weight, bias) parameters.  Bias-free layers carry the zero
function as bias. -/
structure Conv2dLayer where
  inChannels : Nat
  outChannels : Nat
  kernelSize : Nat
  stride : Nat
  weight : Nat → Nat → Nat → Nat → ℚ
  bias : Nat → ℚ
  groups : Nat

/-- Modelled from the spec: dynamic same-padding 2D convolution
(utils.get_same_padding_conv2d, not in src/).  Padding is recomputed from the
actual input spatial size so that the output size is ceil(input / stride);
the total padding is split evenly with the extra unit on the trailing side.
Grouped (depthwise) convolution restricts each output channel to the input
channels of its own group. -/
def Conv2dLayer.apply (L : Conv2dLayer) (x : Tensor) : Tensor :=
  let oh := sameOut x.height L.stride
  let ow := sameOut x.width L.stride
  let padH : Int := (max 0 (((oh : Int) - 1) * L.stride + L.kernelSize - x.height)) / 2
  let padW : Int := (max 0 (((ow : Int) - 1) * L.stride + L.kernelSize - x.width)) / 2
  let icpg := L.inChannels / L.groups
  let ocpg := L.outChannels / L.groups
  ⟨L.outChannels, oh, ow, fun o i j =>
    L.bias o +
      ∑ c in Finset.range icpg, ∑ a in Finset.range L.kernelSize,
        ∑ b in Finset.range L.kernelSize,
          L.weight o c a b *
            x.read ((o / ocpg) * icpg + c)
              ((i : Int) * L.stride - padH + a) ((j : Int) * L.stride - padW + b)⟩

/-- Eval-mode batch normalization, modelled by its per-channel affine
coefficients (see the header comment). -/
structure BatchNorm where
  scale : Nat → ℚ
  shift : Nat → ℚ

def BatchNorm.apply (bn : BatchNorm) (x : Tensor) : Tensor :=
  ⟨x.channels, x.height, x.width, fun c i j => bn.scale c * x.data c i j + bn.shift c⟩

/-- Elementwise swish x * sigmoid(x), with the sigmoid abstract (`sig`).
Swish and MemoryEfficientSwish compute the same forward value; which of the
two a module holds is tracked separately as a Bool flag. -/
def swishT (sig : ℚ → ℚ) (t : Tensor) : Tensor :=
  ⟨t.channels, t.height, t.width, fun c i j => t.data c i j * sig (t.data c i j)⟩

/-- F.adaptive_avg_pool2d(x, 1): global average pooling to a 1 x 1 map. -/
def adaptiveAvgPool (x : Tensor) : Tensor :=
  ⟨x.channels, 1, 1, fun c _ _ =>
    (∑ i in Finset.range x.height, ∑ j in Finset.range x.width, x.data c i j) /
      ((x.height : ℚ) * (x.width : ℚ))⟩

/-- torch.sigmoid(x_squeezed) * x : the squeeze-excite gate, broadcasting the
1 x 1 channel descriptor across spatial positions. -/
def seMul (sig : ℚ → ℚ) (xs x : Tensor) : Tensor :=
  ⟨x.channels, x.height, x.width, fun c i j => sig (xs.data c 0 0) * x.data c i j⟩

/-- Elementwise addition (the residual skip connection). -/
def tensorAdd (a b : Tensor) : Tensor :=
  ⟨a.channels, a.height, a.width, fun c i j => a.data c i j + b.data c i j⟩

/-- Modelled from the spec: the stochastic-depth gate (utils.drop_connect, not
in src/).  Outside training mode the input is returned unchanged; in training
mode one Bernoulli survival bit is drawn for the (single) sample: survivors
are rescaled by 1/(keep probability) and non-survivors are zeroed.  The drawn
bit is passed in explicitly (`survive`). -/
def drop_connect (x : Tensor) (p : ℚ) (training : Bool) (survive : Bool) : Tensor :=
  if training then
    if survive then ⟨x.channels, x.height, x.width, fun c i j => x.data c i j / (1 - p)⟩
    else ⟨x.channels, x.height, x.width, fun _ _ _ => 0⟩
  else x

/-- Python truthiness of the drop_connect_rate argument: None and 0.0 are
falsy, every other float is truthy. -/
def dcrTruthy : Option ℚ → Bool
  | none => false
  | some r => decide (r ≠ 0)

/-- BlockArgs: the per-stage record (kernel size, stride, expand ratio, input
and output filter counts, optional squeeze-excite ratio, repeat count,
skip-eligibility flag). -/
structure BlockArgs where
  kernel_size : Nat
  stride : Nat
  expand_ratio : Nat
  input_filters : Nat
  output_filters : Nat
  se_r : Option ℚ
  num_repeat : Nat
  id_skip : Bool
deriving DecidableEq

/-- The freshly sampled numeric parameters a single MBConvBlock is built
with (nn.Conv2d / nn.BatchNorm2d initialization is random; the sampled values
are threaded in explicitly). -/
structure BlockWeights where
  expandW : Nat → Nat → Nat → Nat → ℚ
  bn0s : Nat → ℚ
  bn0b : Nat → ℚ
  dwW : Nat → Nat → Nat → Nat → ℚ
  bn1s : Nat → ℚ
  bn1b : Nat → ℚ
  seRedW : Nat → Nat → Nat → Nat → ℚ
  seRedB : Nat → ℚ
  seExpW : Nat → Nat → Nat → Nat → ℚ
  seExpB : Nat → ℚ
  projW : Nat → Nat → Nat → Nat → ℚ
  bn2s : Nat → ℚ
  bn2b : Nat → ℚ

/-- The squeezed channel count of src line 58,
max(1, int(input_filters * se_ratio)): for a positive ratio r = n/d, Python's
int() truncation of filters*r is written in integer form as
(filters * n) / d with natural-number (floor) division. -/
def numSqueezed (filters : Nat) (r : ℚ) : Nat :=
  max 1 ((filters * r.num.toNat) / r.den)

/-- A constructed Mobile Inverted Residual Bottleneck Block
(MBConvBlock.__init__, src lines 29-66).  The expansion pair is present iff
expand_ratio is not 1; the squeeze-excite pair is present iff the ratio is set
and lies in (0, 1]. -/
structure MBConvBlock where
  args : BlockArgs
  idSkip : Bool
  expandPart : Option (Conv2dLayer × BatchNorm)
  depthwiseConv : Conv2dLayer
  bn1 : BatchNorm
  sePart : Option (Conv2dLayer × Conv2dLayer)
  projectConv : Conv2dLayer
  bn2 : BatchNorm
  swishMemEff : Bool
  training : Bool

/-- MBConvBlock.__init__ (src lines 29-66): builds the expansion (1 x 1)
convolution when expand_ratio is not 1, the depthwise convolution (groups =
working channels), the squeeze-excite pair when the ratio is set and in
(0,1] — with max(1, int(input_filters * se_ratio)) squeezed channels, int()
being truncation — and the 1 x 1 projection.  Expansion, depthwise and
projection convolutions are bias-free; the squeeze-excite convolutions carry
a bias. -/
def MBConvBlock.make (args : BlockArgs) (w : BlockWeights) (training : Bool) : MBConvBlock :=
  let inp := args.input_filters
  let oup := args.input_filters * args.expand_ratio
  { args := args
    idSkip := args.id_skip
    expandPart :=
      if args.expand_ratio ≠ 1 then
        some (⟨inp, oup, 1, 1, w.expandW, fun _ => 0, 1⟩, ⟨w.bn0s, w.bn0b⟩)
      else none
    depthwiseConv := ⟨oup, oup, args.kernel_size, args.stride, w.dwW, fun _ => 0, oup⟩
    bn1 := ⟨w.bn1s, w.bn1b⟩
    sePart :=
      match args.se_r with
      | some r =>
          if 0 < r ∧ r ≤ 1 then
            let nsq := numSqueezed args.input_filters r
            some (⟨oup, nsq, 1, 1, w.seRedW, w.seRedB, 1⟩,
                  ⟨nsq, oup, 1, 1, w.seExpW, w.seExpB, 1⟩)
          else none
      | none => none
    projectConv := ⟨oup, args.output_filters, 1, 1, w.projW, fun _ => 0, 1⟩
    bn2 := ⟨w.bn2s, w.bn2b⟩
    swishMemEff := true
    training := training }

/-- The pre-squeeze-excite part of the block body: optional expansion then
depthwise convolution, each followed by normalization and activation. -/
def MBConvBlock.preSE (b : MBConvBlock) (sig : ℚ → ℚ) (inputs : Tensor) : Tensor :=
  let x :=
    match b.expandPart with
    | some p => swishT sig (p.2.apply (p.1.apply inputs))
    | none => inputs
  swishT sig (b.bn1.apply (b.depthwiseConv.apply x))

/-- The whole main branch of the block (everything before the skip
connection): expansion, depthwise, optional squeeze-excite, projection. -/
def MBConvBlock.mainPath (b : MBConvBlock) (sig : ℚ → ℚ) (inputs : Tensor) : Tensor :=
  let x := b.preSE sig inputs
  let x :=
    match b.sePart with
    | some p => seMul sig (p.2.apply (swishT sig (p.1.apply (adaptiveAvgPool x)))) x
    | none => x
  b.bn2.apply (b.projectConv.apply x)

/-- MBConvBlock.forward (src lines 68-95), translated statement by statement:
expansion and depthwise convolution, squeeze-excite, projection, then the
skip connection — the input is added back iff the skip-eligibility flag is
set, the stride is 1 and the input and output filter counts agree; a truthy
drop_connect_rate routes the branch through the stochastic-depth gate first. -/
def MBConvBlock.forward (b : MBConvBlock) (sig : ℚ → ℚ) (survive : Bool)
    (inputs : Tensor) (dcr : Option ℚ) : Tensor :=
  let x :=
    match b.expandPart with
    | some p => swishT sig (p.2.apply (p.1.apply inputs))
    | none => inputs
  let x := swishT sig (b.bn1.apply (b.depthwiseConv.apply x))
  let x :=
    match b.sePart with
    | some p => seMul sig (p.2.apply (swishT sig (p.1.apply (adaptiveAvgPool x)))) x
    | none => x
  let x := b.bn2.apply (b.projectConv.apply x)
  if b.idSkip = true ∧ b.args.stride = 1 ∧ b.args.input_filters = b.args.output_filters then
    let x := if dcrTruthy dcr = true then drop_connect x (dcr.getD 0) b.training survive else x
    tensorAdd x inputs
  else x

/-- MBConvBlock.set_swish (src lines 97-99): replaces the block's activation
unit with the memory-efficient or the direct variant. -/
def MBConvBlock.set_swish (b : MBConvBlock) (memory_efficient : Bool) : MBConvBlock :=
  { b with swishMemEff := memory_efficient }

/-- GlobalParams: the global configuration record shared by all blocks. -/
structure GlobalParams where
  width_coefficient : Option ℚ
  depth_coefficient : Option ℚ
  image_size : Option Nat
  batch_norm_momentum : ℚ
  batch_norm_epsilon : ℚ
  dropout_rate : ℚ
  drop_connect_rate : Option ℚ
  num_classes : Nat

/-- Modelled from the spec: utils.round_filters (not in src/) — multiply the
base channel count by the width multiplier m = n/d if one is set (the named
multipliers are all positive), round to the nearest multiple of 8 with a
minimum of 8 (floor(filters*m + 4) rounded down to a multiple of 8 is written
in integer form as (filters*n + 4*d)/d/8*8), and round up one more multiple
whenever rounding dropped the result below 90 percent of the scaled value
(nf < 9/10 * filters*m, in integer form 10*nf*d < 9*filters*n). -/
def round_filters (filters : Nat) (gp : GlobalParams) : Nat :=
  match gp.width_coefficient with
  | none => filters
  | some m =>
      if m = 0 then filters
      else
        let n := m.num.toNat
        let d := m.den
        let nf := max 8 ((((filters * n + 4 * d) / d) / 8) * 8)
        if 10 * nf * d < 9 * (filters * n) then nf + 8 else nf

/-- Modelled from the spec: utils.round_repeats (not in src/) — multiply the
base repeat count by the depth multiplier m = n/d if one is set and round up
to the next integer (ceil(repeats*m), in integer form
(repeats*n + d - 1)/d). -/
def round_repeats (repeats : Nat) (gp : GlobalParams) : Nat :=
  match gp.depth_coefficient with
  | none => repeats
  | some m =>
      if m = 0 then repeats
      else (repeats * m.num.toNat + m.den - 1) / m.den

/-- The namedtuple-_replace step at src lines 141-145: rescale a stage's
filters and repeat count by the global multipliers. -/
def scaleArgs (gp : GlobalParams) (ba : BlockArgs) : BlockArgs :=
  { ba with
      input_filters := round_filters ba.input_filters gp
      output_filters := round_filters ba.output_filters gp
      num_repeat := round_repeats ba.num_repeat gp }

/-- One stage of the block-building loop (src lines 138-152): the first block
of the stage keeps the declared stride and input filters; every further
repeat uses stride 1 and input filters equal to the stage's output filters. -/
def stageBlockArgs (gp : GlobalParams) (ba : BlockArgs) : List BlockArgs :=
  let ba := scaleArgs gp ba
  ba :: List.replicate (ba.num_repeat - 1)
        { ba with input_filters := ba.output_filters, stride := 1 }

/-- The flattened per-block argument list the constructor's loop produces. -/
def allBlockArgs (gp : GlobalParams) (l : List BlockArgs) : List BlockArgs :=
  l.flatMap (stageBlockArgs gp)

/-- The freshly sampled numeric parameters the whole backbone is built with. -/
structure ModelWeights where
  stemW : Nat → Nat → Nat → Nat → ℚ
  bn0s : Nat → ℚ
  bn0b : Nat → ℚ
  headW : Nat → Nat → Nat → Nat → ℚ
  bn1s : Nat → ℚ
  bn1b : Nat → ℚ
  blockW : Nat → BlockWeights
  fcW : Nat → Nat → ℚ
  fcB : Nat → ℚ

/-- The assembled EfficientNet backbone (EfficientNet.__init__, src lines
115-164).  Note that the decoder convolutions of extract_features are NOT
fields here: the source constructs them as locals inside each call, so they
are not part of the model state. -/
structure EfficientNet where
  convStem : Conv2dLayer
  bn0 : BatchNorm
  blocks : List MBConvBlock
  convHead : Conv2dLayer
  bn1 : BatchNorm
  dropout_rate : ℚ
  fcW : Nat → Nat → ℚ
  fcB : Nat → ℚ
  swishMemEff : Bool
  drop_connect_rate : Option ℚ
  training : Bool

/-- The body of EfficientNet.__init__ after its argument validation (src
lines 119-164): stem (3 -> round_filters(32), kernel 3, stride 2, bias-free),
the scaled block sequence, head (kernel 1 to round_filters(1280)), and the
final pooling/dropout/linear members (constructed but unused by forward). -/
def mkModel (blocks_args : List BlockArgs) (gp : GlobalParams) (mw : ModelWeights)
    (training : Bool) : EfficientNet :=
  let bargs := allBlockArgs gp blocks_args
  { convStem := ⟨3, round_filters 32 gp, 3, 2, mw.stemW, fun _ => 0, 1⟩
    bn0 := ⟨mw.bn0s, mw.bn0b⟩
    blocks := bargs.enum.map fun p => MBConvBlock.make p.2 (mw.blockW p.1) training
    convHead :=
      ⟨(bargs.getLast?.elim 0 fun a => a.output_filters), round_filters 1280 gp, 1, 1,
        mw.headW, fun _ => 0, 1⟩
    bn1 := ⟨mw.bn1s, mw.bn1b⟩
    dropout_rate := gp.dropout_rate
    fcW := mw.fcW
    fcB := mw.fcB
    swishMemEff := true
    drop_connect_rate := gp.drop_connect_rate
    training := training }

/-- EfficientNet.__init__ (src lines 115-118): `blocks_args` must be a list
(`none` models a non-list argument) and must be non-empty; both are checked
before any layer is built. -/
def EfficientNet.build (blocks_args : Option (List BlockArgs)) (gp : GlobalParams)
    (mw : ModelWeights) (training : Bool) : Except String EfficientNet :=
  match blocks_args with
  | none => .error "blocks args should be a list"
  | some l =>
      if 0 < l.length then .ok (mkModel l gp mw training)
      else .error "block args must be greater than 0"

/-- EfficientNet.set_swish (src lines 166-170): switches the backbone's own
activation unit and then every block's. -/
def EfficientNet.set_swish (m : EfficientNet) (memory_efficient : Bool) : EfficientNet :=
  { m with
      swishMemEff := memory_efficient
      blocks := m.blocks.map fun b => b.set_swish memory_efficient }

/-- The parameters of the nine decoder convolutions that extract_features
freshly constructs on every call (conv1a, conv1b, conv1c, conv2a, conv2b,
conv3a, conv3b, conv4a, conv4b — all bias-carrying, stride 1). -/
structure DecoderParams where
  w1a : Nat → Nat → Nat → Nat → ℚ
  b1a : Nat → ℚ
  w1b : Nat → Nat → Nat → Nat → ℚ
  b1b : Nat → ℚ
  w1c : Nat → Nat → Nat → Nat → ℚ
  b1c : Nat → ℚ
  w2a : Nat → Nat → Nat → Nat → ℚ
  b2a : Nat → ℚ
  w2b : Nat → Nat → Nat → Nat → ℚ
  b2b : Nat → ℚ
  w3a : Nat → Nat → Nat → Nat → ℚ
  b3a : Nat → ℚ
  w3b : Nat → Nat → Nat → Nat → ℚ
  b3b : Nat → ℚ
  w4a : Nat → Nat → Nat → Nat → ℚ
  b4a : Nat → ℚ
  w4b : Nat → Nat → Nat → Nat → ℚ
  b4b : Nat → ℚ

/-- A decoder convolution as the source builds it: Conv2d(x.shape[1], outC,
kernel_size=k, bias=True, stride=1) — the input channel count is read off the
tensor being convolved. -/
def mkDecConv (inC outC k : Nat) (w : Nat → Nat → Nat → Nat → ℚ) (b : Nat → ℚ) :
    Conv2dLayer :=
  ⟨inC, outC, k, 1, w, b, 1⟩

/-- F.interpolate(x, scale_factor=2, mode="bilinear", align_corners=True):
doubles both spatial dimensions; each output position interpolates bilinearly
between its four neighbours under the align-corners source-coordinate rule. -/
def upsample2 (x : Tensor) : Tensor :=
  ⟨x.channels, 2 * x.height, 2 * x.width, fun c i j =>
    let si : ℚ := if x.height ≤ 1 then 0
      else (i : ℚ) * ((x.height : ℚ) - 1) / ((2 * x.height : ℚ) - 1)
    let sj : ℚ := if x.width ≤ 1 then 0
      else (j : ℚ) * ((x.width : ℚ) - 1) / ((2 * x.width : ℚ) - 1)
    let i0 : Nat := si.floor.toNat
    let j0 : Nat := sj.floor.toNat
    let i1 : Nat := min (i0 + 1) (x.height - 1)
    let j1 : Nat := min (j0 + 1) (x.width - 1)
    let fi : ℚ := si - (i0 : ℚ)
    let fj : ℚ := sj - (j0 : ℚ)
    (1 - fi) * (1 - fj) * x.data c i0 j0 + (1 - fi) * fj * x.data c i0 j1 +
      fi * (1 - fj) * x.data c i1 j0 + fi * fj * x.data c i1 j1⟩

/-- torch.cat along the channel dimension; it is an error (none) when the
spatial dimensions disagree. -/
def catChannels (a b : Tensor) : Option Tensor :=
  if a.height = b.height ∧ a.width = b.width then
    some ⟨a.channels + b.channels, a.height, a.width, fun c i j =>
      if c < a.channels then a.data c i j else b.data (c - a.channels) i j⟩
  else none

/-- Three-tensor torch.cat along the channel dimension. -/
def cat3 (a b c : Tensor) : Option Tensor :=
  (catChannels a b).bind fun ab => catChannels ab c

/-- The transient skipconnection dictionary lookup skipconnection[k] for an
integer key: defined exactly for the completed positions 0..len-1 (a negative
or too-large key is a KeyError). -/
def dictGet (skips : List Tensor) (k : Int) : Option Tensor :=
  if 0 ≤ k then skips.get? k.toNat else none

/-- The decoder of extract_features (src lines 196-227) up to and including
conv4a: four fuse stages built from freshly constructed convolutions, bilinear
x2 upsampling, and concatenation with the cached encoder outputs at positions
index-5, index-11, index-13 and index-15. -/
def decoderBody (dp : DecoderParams) (sig : ℚ → ℚ) (skips : List Tensor) (index : Nat)
    (x : Tensor) : Option Tensor :=
  let d2xec := swishT sig ((mkDecConv x.channels 512 3 dp.w1a dp.b1a).apply x)
  let d2x := upsample2 d2xec
  (dictGet skips ((index : Int) - 5)).bind fun s1 =>
  (catChannels d2x s1).bind fun dc2x =>
  let d4xec := swishT sig ((mkDecConv dc2x.channels 256 3 dp.w1b dp.b1b).apply dc2x)
  let d4x := upsample2 d4xec
  let out4x := (mkDecConv d4x.channels 2 3 dp.w1c dp.b1c).apply d4x
  (dictGet skips ((index : Int) - 11)).bind fun s2 =>
  (cat3 d4x s2 out4x).bind fun dc4x =>
  let d8xec := swishT sig ((mkDecConv dc4x.channels 128 3 dp.w2a dp.b2a).apply dc4x)
  let d8x := upsample2 d8xec
  let out8x := (mkDecConv d8x.channels 2 3 dp.w2b dp.b2b).apply d8x
  (dictGet skips ((index : Int) - 13)).bind fun s3 =>
  (cat3 d8x s3 out8x).bind fun dc8x =>
  let d16xec := swishT sig ((mkDecConv dc8x.channels 64 5 dp.w3a dp.b3a).apply dc8x)
  let d16x := upsample2 d16xec
  let out16x := (mkDecConv d16x.channels 2 3 dp.w3b dp.b3b).apply d16x
  (dictGet skips ((index : Int) - 15)).bind fun s4 =>
  (cat3 d16x s4 out16x).bind fun dc16x =>
  some (swishT sig ((mkDecConv dc16x.channels 64 5 dp.w4a dp.b4a).apply dc16x))

/-- The last decoder statement (src lines 228-229): the freshly built conv4b
maps the 64-channel map to the returned 2-channel likelihood map. -/
def lastConvApply (dp : DecoderParams) (d : Tensor) : Tensor :=
  (mkDecConv d.channels 2 3 dp.w4b dp.b4b).apply d

/-- The whole decoder (src lines 196-232): the fuse stages followed by the
final 2-channel convolution. -/
def decoderRun (dp : DecoderParams) (sig : ℚ → ℚ) (skips : List Tensor) (index : Nat)
    (x : Tensor) : Option Tensor :=
  (decoderBody dp sig skips index x).bind fun d => some (lastConvApply dp d)

/-- One step of the block loop of extract_features (src lines 181-188): the
global drop-connect rate is scaled by idx / number-of-blocks when truthy
(r * idx / len, written as one mkRat), the block is applied, and its output
is appended to the skipconnection cache. -/
def blockStep (m : EfficientNet) (sig : ℚ → ℚ) (sv : Nat → Bool)
    (acc : Tensor × List Tensor) (p : Nat × MBConvBlock) : Tensor × List Tensor :=
  let dcr : Option ℚ :=
    match m.drop_connect_rate with
    | none => none
    | some r =>
        if r = 0 then some r
        else some (mkRat (r.num * p.1) (r.den * m.blocks.length))
  let x := p.2.forward sig (sv p.1) acc.1 dcr
  (x, acc.2 ++ [x])

/-- The encoder part of extract_features (src lines 175-191) followed by the
decoder fuse stages: stem (cached at position 0), every block in sequence
(block i cached at position i+1), the head convolution, and decoderBody.  The
per-block stochastic-depth survival bits are supplied by `sv`. -/
def encodeAndFuse (m : EfficientNet) (sig : ℚ → ℚ) (sv : Nat → Bool) (dp : DecoderParams)
    (inputs : Tensor) : Option Tensor :=
  let x0 := swishT sig (m.bn0.apply (m.convStem.apply inputs))
  let res := m.blocks.enum.foldl (blockStep m sig sv) (x0, [x0])
  let x := swishT sig (m.bn1.apply (m.convHead.apply res.1))
  decoderBody dp sig res.2 m.blocks.length x

/-- EfficientNet.extract_features (src lines 173-232).  The decoder layers
are local to the call: their freshly sampled parameters enter through `dp`
and are not part of the EfficientNet value. -/
def EfficientNet.extract_features (m : EfficientNet) (sig : ℚ → ℚ) (sv : Nat → Bool)
    (dp : DecoderParams) (inputs : Tensor) : Option Tensor :=
  (encodeAndFuse m sig sv dp inputs).bind fun d => some (lastConvApply dp d)

/-- EfficientNet.forward (src lines 234-246): the pooling/linear tail is
commented out in the source, so forward returns extract_features directly. -/
def EfficientNet.forward (m : EfficientNet) (sig : ℚ → ℚ) (sv : Nat → Bool)
    (dp : DecoderParams) (inputs : Tensor) : Option Tensor :=
  m.extract_features sig sv dp inputs

/-- The valid_models list of _check_model_name_is_valid (src line 274). -/
def validModels : List String := (List.range 9).map fun i => "efficientnet-b" ++ toString i

/-- EfficientNet._check_model_name_is_valid (src lines 271-276): raises
ValueError exactly when the name is not among the nine identifiers. -/
def check_model_name_is_valid (model_name : String) : Except String Unit :=
  if model_name ∈ validModels then .ok ()
  else .error "model name should be one of the recognized identifiers"

/-- Modelled from the spec: utils.efficientnet_params (not in src/) — the
registry table mapping each of the nine names to its compound-scaling
coefficients (width, depth), canonical resolution and dropout rate. -/
def efficientnet_params (model_name : String) : Option (ℚ × ℚ × Nat × ℚ) :=
  if model_name = "efficientnet-b0" then some (1, 1, 224, mkRat 1 5)
  else if model_name = "efficientnet-b1" then some (1, mkRat 11 10, 240, mkRat 1 5)
  else if model_name = "efficientnet-b2" then some (mkRat 11 10, mkRat 6 5, 260, mkRat 3 10)
  else if model_name = "efficientnet-b3" then some (mkRat 6 5, mkRat 7 5, 300, mkRat 3 10)
  else if model_name = "efficientnet-b4" then some (mkRat 7 5, mkRat 9 5, 380, mkRat 2 5)
  else if model_name = "efficientnet-b5" then some (mkRat 8 5, mkRat 11 5, 456, mkRat 2 5)
  else if model_name = "efficientnet-b6" then some (mkRat 9 5, mkRat 13 5, 528, mkRat 1 2)
  else if model_name = "efficientnet-b7" then some (2, mkRat 31 10, 600, mkRat 1 2)
  else if model_name = "efficientnet-b8" then some (mkRat 11 5, mkRat 18 5, 672, mkRat 1 2)
  else none

/-- Modelled from the spec: the canonical stage list of the smallest named
configuration (utils.get_model_params, not in src/): seven stages with
repeats 1,2,2,3,3,4,1, strides 1,2,2,2,1,2,1, kernels 3,3,5,3,5,5,3, filter
chain 32-16-24-40-80-112-192-320, expand ratio 1 then 6, squeeze-excite ratio
0.25 and skip eligibility everywhere — the configuration whose per-block
stride-2 positions the spec's decoder offsets (5, 11, 13, 15) are tied to. -/
def b0StageArgs : List BlockArgs :=
  [⟨3, 1, 1, 32, 16, some (mkRat 1 4), 1, true⟩,
   ⟨3, 2, 6, 16, 24, some (mkRat 1 4), 2, true⟩,
   ⟨5, 2, 6, 24, 40, some (mkRat 1 4), 2, true⟩,
   ⟨3, 2, 6, 40, 80, some (mkRat 1 4), 3, true⟩,
   ⟨5, 1, 6, 80, 112, some (mkRat 1 4), 3, true⟩,
   ⟨5, 2, 6, 112, 192, some (mkRat 1 4), 4, true⟩,
   ⟨3, 1, 6, 192, 320, some (mkRat 1 4), 1, true⟩]

/-- Modelled from the spec: utils.get_model_params (not in src/) — resolves a
name through the registry table into the shared stage list plus the global
parameter record for that name. -/
def get_model_params (model_name : String) :
    Except String (List BlockArgs × GlobalParams) :=
  match efficientnet_params model_name with
  | some p =>
      .ok (b0StageArgs,
        { width_coefficient := some p.1
          depth_coefficient := some p.2.1
          image_size := some p.2.2.1
          batch_norm_momentum := mkRat 99 100
          batch_norm_epsilon := mkRat 1 1000
          dropout_rate := p.2.2.2
          drop_connect_rate := some (mkRat 1 5)
          num_classes := 1000 })
  | none => .error "model name is not pre-defined"

/-- EfficientNet.from_name (src lines 249-253): validate the name, resolve
the parameters, construct the model.  The conv_type selector only chooses
between the two same-padding convolution variants, which share the shape
contract modelled by Conv2dLayer.apply, so it has no counterpart here. -/
def EfficientNet.from_name (model_name : String) (mw : ModelWeights) :
    Except String EfficientNet :=
  match check_model_name_is_valid model_name with
  | .error e => .error e
  | .ok _ =>
      match get_model_params model_name with
      | .error e => .error e
      | .ok p => EfficientNet.build (some p.1) p.2 mw false

/-- EfficientNet.get_image_size (src lines 265-269): validate the name, then
read the canonical resolution out of the registry table. -/
def EfficientNet.get_image_size (model_name : String) : Except String Nat :=
  match check_model_name_is_valid model_name with
  | .error e => .error e
  | .ok _ =>
      match efficientnet_params model_name with
      | some p => .ok p.2.2.1
      | none => .error "model name is not pre-defined"

/-- A concrete all-zero sampling of one block's parameters (used to
instantiate theorems at specific models; the structural properties hold for
every sampling). -/
def zeroBW : BlockWeights :=
  ⟨fun _ _ _ _ => 0, fun _ => 0, fun _ => 0, fun _ _ _ _ => 0, fun _ => 0, fun _ => 0,
   fun _ _ _ _ => 0, fun _ => 0, fun _ _ _ _ => 0, fun _ => 0, fun _ _ _ _ => 0,
   fun _ => 0, fun _ => 0⟩

/-- A concrete all-zero sampling of the backbone parameters. -/
def mwZero : ModelWeights :=
  ⟨fun _ _ _ _ => 0, fun _ => 0, fun _ => 0, fun _ _ _ _ => 0, fun _ => 0, fun _ => 0,
   fun _ => zeroBW, fun _ _ => 0, fun _ => 0⟩

/-- A concrete all-zero sampling of the decoder parameters. -/
def dpZero : DecoderParams :=
  ⟨fun _ _ _ _ => 0, fun _ => 0, fun _ _ _ _ => 0, fun _ => 0, fun _ _ _ _ => 0,
   fun _ => 0, fun _ _ _ _ => 0, fun _ => 0, fun _ _ _ _ => 0, fun _ => 0,
   fun _ _ _ _ => 0, fun _ => 0, fun _ _ _ _ => 0, fun _ => 0, fun _ _ _ _ => 0,
   fun _ => 0, fun _ _ _ _ => 0, fun _ => 0⟩

/-- A second decoder sampling, differing from dpZero only in the bias of the
final convolution conv4b. -/
def dpOne : DecoderParams := { dpZero with b4b := fun _ => 1 }

/-- A concrete stand-in for the abstract sigmoid parameter, used to
instantiate theorems (none of them depend on which function is chosen). -/
def sigArb : ℚ → ℚ := fun q => q

/-- A concrete survival-bit stream for the stochastic-depth gate. -/
def svAll : Nat → Bool := fun _ => true

/-- Modelled from the spec: the global parameters the registry resolves for
the smallest named configuration (width and depth multipliers 1, resolution
224). -/
def b0gp : GlobalParams :=
  ⟨some 1, some 1, some 224, mkRat 99 100, mkRat 1 1000, mkRat 1 5, some (mkRat 1 5), 1000⟩

/-- The backbone built from the smallest named configuration (with the
all-zero parameter sampling; every property proved about it is
shape-structural and independent of the sampled values). -/
def b0model : EfficientNet := mkModel b0StageArgs b0gp mwZero false

/-- A 3-channel 224 x 224 input sample (the batch dimension of the claims is
implicit; batch size is 1 throughout). -/
def x224 : Tensor := ⟨3, 224, 224, fun _ _ _ => 0⟩

/-- A 3-channel 32 x 32 input sample (the smallest spatial size on which the
decoder's concatenations are consistent for this configuration). -/
def x32 : Tensor := ⟨3, 32, 32, fun _ _ _ => 0⟩

/-- The nine recognized model identifiers, written out. -/
def nineNames : List String :=
  ["efficientnet-b0", "efficientnet-b1", "efficientnet-b2", "efficientnet-b3",
   "efficientnet-b4", "efficientnet-b5", "efficientnet-b6", "efficientnet-b7",
   "efficientnet-b8"]

/-- The decoder as the specification describes it, written from the spec's
words for comparison against the source-derived decoderRun: starting from the
last encoder output, a 3x3 convolution to 512 channels plus activation, a x2
bilinear aligned-corners upsample, concatenation with the cached output 5
positions back from the deepest, a convolution to 256 channels plus
activation, another x2 upsample and a 2-channel likelihood map by a 3x3
convolution; two further stages at 128 then 64 channels (5x5 kernels for the
final two stages) concatenating the cached outputs 11 and 13 positions back
together with the previous scale's likelihood map; and a final stage that
concatenates the output 15 positions back, omits the upsample and returns its
2-channel map. -/
def decoderSpec (dp : DecoderParams) (sig : ℚ → ℚ) (skips : List Tensor) (index : Nat)
    (x : Tensor) : Option Tensor :=
  let stage1 := upsample2 (swishT sig ((mkDecConv x.channels 512 3 dp.w1a dp.b1a).apply x))
  (dictGet skips ((index : Int) - 5)).bind fun back5 =>
  (catChannels stage1 back5).bind fun fuse1 =>
  let stage2 := upsample2 (swishT sig ((mkDecConv fuse1.channels 256 3 dp.w1b dp.b1b).apply fuse1))
  let like2 := (mkDecConv stage2.channels 2 3 dp.w1c dp.b1c).apply stage2
  (dictGet skips ((index : Int) - 11)).bind fun back11 =>
  (cat3 stage2 back11 like2).bind fun fuse2 =>
  let stage3 := upsample2 (swishT sig ((mkDecConv fuse2.channels 128 3 dp.w2a dp.b2a).apply fuse2))
  let like3 := (mkDecConv stage3.channels 2 3 dp.w2b dp.b2b).apply stage3
  (dictGet skips ((index : Int) - 13)).bind fun back13 =>
  (cat3 stage3 back13 like3).bind fun fuse3 =>
  let stage4 := upsample2 (swishT sig ((mkDecConv fuse3.channels 64 5 dp.w3a dp.b3a).apply fuse3))
  let like4 := (mkDecConv stage4.channels 2 3 dp.w3b dp.b3b).apply stage4
  (dictGet skips ((index : Int) - 15)).bind fun back15 =>
  (cat3 stage4 back15 like4).bind fun fuse4 =>
  let final := swishT sig ((mkDecConv fuse4.channels 64 5 dp.w4a dp.b4a).apply fuse4)
  some ((mkDecConv final.channels 2 3 dp.w4b dp.b4b).apply final)

/-- Whether all four cached-output lookups of the decoder are defined for a
cache of the given deepest index. -/
def decoderLookupsDefined (skips : List Tensor) (index : Nat) : Prop :=
  (dictGet skips ((index : Int) - 5)).isSome = true ∧
  (dictGet skips ((index : Int) - 11)).isSome = true ∧
  (dictGet skips ((index : Int) - 13)).isSome = true ∧
  (dictGet skips ((index : Int) - 15)).isSome = true

instance : Inhabited BlockArgs := ⟨⟨0, 0, 0, 0, 0, none, 0, false⟩⟩

/-- The squeezed-channel formula as the claim words it: max(1,
round(input_filters * se_ratio)).  round(x) = floor(x + 1/2) is written in
integer form for a positive ratio n/d as (2*filters*n + d) / (2*d); at the
inputs considered below the value of filters*ratio is 3/2, where every common
rounding convention (round-half-up and Python's round-half-to-even alike)
gives 2. -/
def numSqueezedRound (filters : Nat) (r : ℚ) : Nat :=
  max 1 ((2 * filters * r.num.toNat + r.den) / (2 * r.den))

/-- Block arguments with input_filters * se_ratio = 3/2: the point where
truncation (the code) and rounding (the claim) disagree. -/
def args6 : BlockArgs := ⟨3, 1, 1, 6, 6, some (mkRat 1 4), 1, true⟩

/-- Block arguments with a squeeze-excite ratio 1/4 on 8 input filters. -/
def args8 : BlockArgs := ⟨3, 1, 1, 8, 8, some (mkRat 1 4), 1, true⟩

/-- Block arguments of an identity-shaped block: expand ratio 1, stride 1,
equal input and output filter counts, skip-eligible, no squeeze-excite. -/
def argsId : BlockArgs := ⟨1, 1, 1, 4, 4, none, 1, true⟩

/-- A 4-channel 2 x 2 input for the identity-shaped block. -/
def xId : Tensor := ⟨4, 2, 2, fun _ _ _ => 0⟩

/-- A stride-1 same-padding convolution preserves the spatial size. -/
theorem sameOut_one (s : Nat) : sameOut s 1 = s := by simp [sameOut]

/-- MBConvBlock.forward, split at the skip connection: the body equals the
main branch, with the input added back exactly under the source's triple
condition, and the branch routed through the stochastic-depth gate exactly
when the supplied rate is truthy. -/
theorem forward_skip_split (b : MBConvBlock) (sig : ℚ → ℚ) (sv : Bool) (inputs : Tensor)
    (dcr : Option ℚ) :
    b.forward sig sv inputs dcr =
      if b.idSkip = true ∧ b.args.stride = 1 ∧ b.args.input_filters = b.args.output_filters
      then
        tensorAdd
          (if dcrTruthy dcr = true
           then drop_connect (b.mainPath sig inputs) (dcr.getD 0) b.training sv
           else b.mainPath sig inputs)
          inputs
      else b.mainPath sig inputs := rfl

/-- List.get? succeeds exactly on indices below the length. -/
theorem get?_isSome_iff (l : List Tensor) (n : Nat) :
    (l.get? n).isSome = true ↔ n < l.length := by
  induction l generalizing n with
  | nil => simp [List.get?]
  | cons a t ih =>
      cases n with
      | zero => simp [List.get?]
      | succ m => simpa [List.get?] using ih m

/-- The skipconnection-dictionary lookup succeeds exactly on keys that are
non-negative and below the cache size. -/
theorem dictGet_isSome_iff (skips : List Tensor) (k : Int) :
    (dictGet skips k).isSome = true ↔ 0 ≤ k ∧ k.toNat < skips.length := by
  unfold dictGet
  by_cases h : 0 ≤ k
  · rw [if_pos h, get?_isSome_iff]
    simp [h]
  · simp [h]

/-- A convolution whose weights are all zero produces its bias at every
output position (here read at position (0,0,0)). -/
theorem lastConvApply_zero_weight (dp : DecoderParams) (d : Tensor)
    (hw : dp.w4b = fun _ _ _ _ => 0) :
    (lastConvApply dp d).data 0 0 0 = dp.b4b 0 := by
  simp [lastConvApply, mkDecConv, Conv2dLayer.apply, hw]

set_option maxRecDepth 100000 in
/-- Claim C1 (counterexample): a forward call of the model built from the
smallest named configuration on a (1,3,224,224) input does not return a
(1,2,224,224) tensor — the output is not at the input's spatial
resolution. -/
theorem forward_b0_not_input_resolution :
    (EfficientNet.from_name "efficientnet-b0" mwZero).toOption.map
      (fun m => (m.forward sigArb svAll dpZero x224).map Tensor.dims) ≠
      some (some (2, 224, 224)) := by decide

set_option maxRecDepth 100000 in
/-- Claim C1 (amended): a forward call of the model built from the smallest
named configuration on a (1,3,224,224) input returns a (1,2,112,112) tensor:
2 channels at HALF the input resolution, since the four x2 upsamples start
from the 1/32-resolution deepest stage. -/
theorem forward_b0_resolution :
    (EfficientNet.from_name "efficientnet-b0" mwZero).toOption.map
      (fun m => (m.forward sigArb svAll dpZero x224).map Tensor.dims) =
      some (some (2, 112, 112)) := by decide

set_option maxRecDepth 100000 in
/-- Claim C2: extract_features rebuilds its decoder convolutions on every
call with freshly sampled parameters and never stores them on the model
(in this embedding they enter as the per-call argument dp and the model
record has no decoder fields), so two forward calls of the same model on the
same input can disagree: here two samplings that differ only in the bias of
the final convolution produce different outputs. -/
theorem fresh_decoder_outputs_differ :
    EfficientNet.forward b0model sigArb svAll dpZero x32 ≠
      EfficientNet.forward b0model sigArb svAll dpOne x32 := by
  have hz : (encodeAndFuse b0model sigArb svAll dpZero x32).isSome = true := by decide
  have ho : (encodeAndFuse b0model sigArb svAll dpOne x32).isSome = true := by decide
  obtain ⟨dz, hdz⟩ := Option.isSome_iff_exists.mp hz
  obtain ⟨d1, hd1⟩ := Option.isSome_iff_exists.mp ho
  intro h
  rw [EfficientNet.forward, EfficientNet.forward, EfficientNet.extract_features,
    EfficientNet.extract_features, hdz, hd1] at h
  simp only [Option.some_bind, Option.some.injEq] at h
  have h0 := congrArg (fun t => t.data 0 0 0) h
  dsimp only at h0
  rw [lastConvApply_zero_weight dpZero dz rfl, lastConvApply_zero_weight dpOne d1 rfl] at h0
  simp [dpZero, dpOne] at h0

/-- Claim C3: the decoder of extract_features coincides, for every parameter
sampling, activation, cache and input, with the stage sequence the
specification describes (512-channel 3x3 stage, x2 bilinear aligned-corners
upsamples, fusions with the cached outputs 5, 11, 13 and 15 positions back,
2-channel likelihood maps, 128- and 64-channel middle stages with 5x5 kernels
on the final two, and a final stage without upsample returning its 2-channel
map). -/
theorem decoder_follows_spec (dp : DecoderParams) (sig : ℚ → ℚ) (skips : List Tensor)
    (index : Nat) (x : Tensor) :
    decoderSpec dp sig skips index x = decoderRun dp sig skips index x := by
  unfold decoderSpec decoderRun decoderBody lastConvApply
  cases dictGet skips ((index : Int) - 5) with
  | none => rfl
  | some s1 =>
  simp only [Option.some_bind]
  cases catChannels _ s1 with
  | none => rfl
  | some c1 =>
  simp only [Option.some_bind]
  cases dictGet skips ((index : Int) - 11) with
  | none => rfl
  | some s2 =>
  simp only [Option.some_bind]
  cases cat3 _ s2 _ with
  | none => rfl
  | some c2 =>
  simp only [Option.some_bind]
  cases dictGet skips ((index : Int) - 13) with
  | none => rfl
  | some s3 =>
  simp only [Option.some_bind]
  cases cat3 _ s3 _ with
  | none => rfl
  | some c3 =>
  simp only [Option.some_bind]
  cases dictGet skips ((index : Int) - 15) with
  | none => rfl
  | some s4 =>
  simp only [Option.some_bind]
  cases cat3 _ s4 _ with
  | none => rfl
  | some c4 => rfl

/-- Claim C4 (counterexample): at input_filters = 6 and se_ratio = 1/4 the
block's squeeze path reduces to max(1, int(6 * 1/4)) = 1 channel, not the
claimed max(1, round(6 * 1/4)) = 2 — the code truncates where the claim says
round. -/
theorem se_channels_not_round :
    ((MBConvBlock.make args6 zeroBW false).sePart.map fun p => p.1.outChannels) ≠
      some (numSqueezedRound 6 (mkRat 1 4)) ∧
    ((MBConvBlock.make args6 zeroBW false).sePart.map fun p => p.1.outChannels) = some 1 ∧
    numSqueezedRound 6 (mkRat 1 4) = 2 := by decide

/-- Claim C4 (amended): for every block whose squeeze-excite ratio is set and
lies in (0,1], the squeeze path reduces the pooled descriptor to exactly
max(1, int(input_filters * se_ratio)) channels (int = truncation, not
rounding), re-expands to the block's working channel count
input_filters * expand_ratio, and multiplies the sigmoid of the result
elementwise back onto the feature map. -/
theorem se_path_structure (args : BlockArgs) (w : BlockWeights) (tr : Bool) (r : ℚ)
    (hr : args.se_r = some r) (h0 : 0 < r) (h1 : r ≤ 1) :
    ∃ red exp, (MBConvBlock.make args w tr).sePart = some (red, exp) ∧
      red.inChannels = args.input_filters * args.expand_ratio ∧
      red.outChannels = numSqueezed args.input_filters r ∧
      exp.inChannels = numSqueezed args.input_filters r ∧
      exp.outChannels = args.input_filters * args.expand_ratio ∧
      ∀ (sig : ℚ → ℚ) (x : Tensor),
        (MBConvBlock.make args w tr).mainPath sig x =
          (MBConvBlock.make args w tr).bn2.apply
            ((MBConvBlock.make args w tr).projectConv.apply
              (seMul sig
                (exp.apply (swishT sig (red.apply
                  (adaptiveAvgPool ((MBConvBlock.make args w tr).preSE sig x)))))
                ((MBConvBlock.make args w tr).preSE sig x))) := by
  have hse : (MBConvBlock.make args w tr).sePart =
      some (⟨args.input_filters * args.expand_ratio, numSqueezed args.input_filters r,
              1, 1, w.seRedW, w.seRedB, 1⟩,
            ⟨numSqueezed args.input_filters r, args.input_filters * args.expand_ratio,
              1, 1, w.seExpW, w.seExpB, 1⟩) := by
    simp [MBConvBlock.make, hr, h0, h1]
  refine ⟨_, _, hse, rfl, rfl, rfl, rfl, ?_⟩
  intro sig x
  rw [MBConvBlock.mainPath, hse]

/-- Witness for claim C4's amended theorem at a concrete block: ratio 1/4 on
8 input filters. -/
theorem se_path_structure_witness :
    (args8.se_r = some (mkRat 1 4) ∧ 0 < mkRat 1 4 ∧ mkRat 1 4 ≤ 1) ∧
    (∃ red exp, (MBConvBlock.make args8 zeroBW false).sePart = some (red, exp) ∧
      red.inChannels = args8.input_filters * args8.expand_ratio ∧
      red.outChannels = numSqueezed args8.input_filters (mkRat 1 4) ∧
      exp.inChannels = numSqueezed args8.input_filters (mkRat 1 4) ∧
      exp.outChannels = args8.input_filters * args8.expand_ratio ∧
      ∀ (sig : ℚ → ℚ) (x : Tensor),
        (MBConvBlock.make args8 zeroBW false).mainPath sig x =
          (MBConvBlock.make args8 zeroBW false).bn2.apply
            ((MBConvBlock.make args8 zeroBW false).projectConv.apply
              (seMul sig
                (exp.apply (swishT sig (red.apply
                  (adaptiveAvgPool ((MBConvBlock.make args8 zeroBW false).preSE sig x)))))
                ((MBConvBlock.make args8 zeroBW false).preSE sig x)))) :=
  ⟨⟨rfl, by decide, by decide⟩,
   se_path_structure args8 zeroBW false (mkRat 1 4) rfl (by decide) (by decide)⟩

/-- Claim C5: for every block and every input, the residual addition happens
exactly under the triple condition (skip-eligibility flag, stride 1, equal
input and output filter counts), and when it happens a truthy drop-connect
rate routes the branch through the stochastic-depth gate before the
addition. -/
theorem residual_skip_iff (b : MBConvBlock) (sig : ℚ → ℚ) (sv : Bool) (inputs : Tensor)
    (dcr : Option ℚ) :
    b.forward sig sv inputs dcr =
      if b.idSkip = true ∧ b.args.stride = 1 ∧ b.args.input_filters = b.args.output_filters
      then
        tensorAdd
          (if dcrTruthy dcr = true
           then drop_connect (b.mainPath sig inputs) (dcr.getD 0) b.training sv
           else b.mainPath sig inputs)
          inputs
      else b.mainPath sig inputs := rfl

/-- Claim C6: a block with expand_ratio 1, stride 1, equal input and output
filter counts and skip enabled maps an input of matching channel count to an
output of the same shape, and with stochastic depth disabled (rate None or 0,
or eval mode) the output is exactly the activation-processed main path plus
the input, with no gating or rescaling. -/
theorem identity_block_residual (args : BlockArgs) (w : BlockWeights) (tr : Bool)
    (sig : ℚ → ℚ) (sv : Bool) (inputs : Tensor) (dcr : Option ℚ)
    (he : args.expand_ratio = 1) (hs : args.stride = 1)
    (hio : args.input_filters = args.output_filters) (hk : args.id_skip = true)
    (hc : inputs.channels = args.input_filters)
    (hg : dcrTruthy dcr = false ∨ tr = false) :
    ((MBConvBlock.make args w tr).forward sig sv inputs dcr).dims = inputs.dims ∧
    (MBConvBlock.make args w tr).forward sig sv inputs dcr =
      tensorAdd ((MBConvBlock.make args w tr).mainPath sig inputs) inputs := by
  have hcond : (MBConvBlock.make args w tr).idSkip = true ∧
      (MBConvBlock.make args w tr).args.stride = 1 ∧
      (MBConvBlock.make args w tr).args.input_filters =
        (MBConvBlock.make args w tr).args.output_filters := by
    exact ⟨hk, hs, hio⟩
  have heq : (MBConvBlock.make args w tr).forward sig sv inputs dcr =
      tensorAdd ((MBConvBlock.make args w tr).mainPath sig inputs) inputs := by
    rw [forward_skip_split, if_pos hcond]
    rcases hg with hg | hg
    · rw [if_neg (by simp [hg])]
    · rcases hdc : dcrTruthy dcr with _ | _
      · rw [if_neg (by simp)]
      · rw [if_pos rfl]
        have : (MBConvBlock.make args w tr).training = false := hg ▸ rfl
        rw [drop_connect, this]
        simp
  refine ⟨?_, heq⟩
  rw [heq]
  have hmp : ((MBConvBlock.make args w tr).mainPath sig inputs).dims = inputs.dims := by
    rw [MBConvBlock.mainPath, MBConvBlock.preSE]
    have hexp : (MBConvBlock.make args w tr).expandPart = none := by
      simp [MBConvBlock.make, he]
    rw [hexp]
    cases hsp : (MBConvBlock.make args w tr).sePart with
    | none =>
        simp [MBConvBlock.make, Tensor.dims, Conv2dLayer.apply, BatchNorm.apply,
          swishT, sameOut_one, hs, he, hio, hc]
    | some p =>
        simp [MBConvBlock.make, Tensor.dims, Conv2dLayer.apply, BatchNorm.apply,
          swishT, seMul, sameOut_one, hs, he, hio, hc]
  simpa [tensorAdd, Tensor.dims] using hmp

/-- Witness for claim C6 at a concrete identity-shaped block and input. -/
theorem identity_block_residual_witness :
    ((MBConvBlock.make argsId zeroBW false).forward sigArb true xId none).dims = xId.dims ∧
    (MBConvBlock.make argsId zeroBW false).forward sigArb true xId none =
      tensorAdd ((MBConvBlock.make argsId zeroBW false).mainPath sigArb xId) xId :=
  identity_block_residual argsId zeroBW false sigArb true xId none rfl rfl rfl rfl rfl
    (Or.inl rfl)

/-- Claim C7: name validation, image-size lookup and construction by name
succeed exactly on the nine recognized identifiers and fail with the
invalid-argument error on every other string. -/
theorem name_validation_iff (name : String) :
    ((check_model_name_is_valid name).isOk = true ↔ name ∈ nineNames) ∧
    ((EfficientNet.get_image_size name).isOk = true ↔ name ∈ nineNames) ∧
    ((EfficientNet.from_name name mwZero).isOk = true ↔ name ∈ nineNames) := by
  have hv : validModels = nineNames := by decide
  by_cases hm : name ∈ nineNames
  · simp only [nineNames, List.mem_cons, List.not_mem_nil, or_false] at hm
    rcases hm with rfl | rfl | rfl | rfl | rfl | rfl | rfl | rfl | rfl <;>
      exact ⟨by decide, by decide, by decide⟩
  · have hnv : name ∉ validModels := hv ▸ hm
    have hc : check_model_name_is_valid name =
        Except.error "model name should be one of the recognized identifiers" := by
      rw [check_model_name_is_valid, if_neg hnv]
    refine ⟨?_, ?_, ?_⟩
    · simp [hc, Except.isOk, Except.toBool, hm]
    · simp [EfficientNet.get_image_size, hc, Except.isOk, Except.toBool, hm]
    · simp [EfficientNet.from_name, hc, Except.isOk, Except.toBool, hm]

/-- Claim C8: construction rejects a non-list (none) or empty blocks_args
before building any layer, and proceeds for every non-empty list. -/
theorem build_checks_blocks_args (ba : Option (List BlockArgs)) (gp : GlobalParams)
    (mw : ModelWeights) (tr : Bool) :
    (EfficientNet.build ba gp mw tr).isOk =
      (match ba with
       | none => false
       | some l => decide (0 < l.length)) := by
  cases ba with
  | none => rfl
  | some l =>
      by_cases h : 0 < l.length <;>
        simp [EfficientNet.build, h, Except.isOk, Except.toBool]

set_option maxRecDepth 10000 in
/-- Claim C9: the decoder's four cache lookups (at index-5, index-11,
index-13, index-15, over a cache holding positions 0..index) are all defined
exactly when the encoder has at least 15 blocks; in the smallest named
configuration the encoder has 16 blocks, whose stride-2 blocks sit exactly at
positions 1, 3, 5 and 11 — precisely the cache positions 16-15, 16-13, 16-11
and 16-5 the decoder reads, i.e. the cached outputs immediately before each
stride-2 block. -/
theorem decoder_offsets_defined_iff :
    (∀ (index : Nat) (skips : List Tensor), skips.length = index + 1 →
      (decoderLookupsDefined skips index ↔ 15 ≤ index)) ∧
    (allBlockArgs b0gp b0StageArgs).length = 16 ∧
    ((List.range 16).filter fun i =>
        ((allBlockArgs b0gp b0StageArgs).getD i default).stride = 2) = [1, 3, 5, 11] ∧
    ([(16 : Int) - 5, (16 : Int) - 11, (16 : Int) - 13, (16 : Int) - 15] =
      [(11 : Int), 5, 3, 1]) := by
  refine ⟨?_, by decide, by decide, by decide⟩
  intro index skips h
  unfold decoderLookupsDefined
  simp only [dictGet_isSome_iff, h]
  omega

/-- Witness for claim C9 at a concrete cache of 16 positions (15 blocks'
outputs plus the stem). -/
theorem decoder_offsets_defined_iff_witness :
    decoderLookupsDefined (List.replicate 16 x32) 15 ↔ 15 ≤ 15 :=
  decoder_offsets_defined_iff.1 15 (List.replicate 16 x32) (by simp)

/-- Claim C10: after set_swish the activation-mode flag is consistent across
the whole model — the backbone's own unit and every block's unit all carry
the requested mode. -/
theorem set_swish_consistent (m : EfficientNet) (me : Bool) :
    (((m.set_swish me).swishMemEff == me) &&
      (m.set_swish me).blocks.all fun b => b.swishMemEff == me) = true := by
  simp [EfficientNet.set_swish, MBConvBlock.set_swish, List.all_eq_true]

end EffCFL
